import Mathlib

/-!
Verification of the Korean Braille reference library (`data/braille_library.py`,
`models/braille_models.py`) and its HTTP boundary layer
(`routers/braille_library.py`).

Modelling conventions:
* Python `str` is modelled by Lean `String`; `str.lower()` is modelled by
  mapping `Char.toLower` over the characters (exact on the ASCII range;
  Python's Unicode lowercasing is the identity on the Korean jamo, digits
  and punctuation appearing in the table, where `Char.toLower` is also the
  identity).
* Python's substring operator `q in s` is modelled by `List.isInfixOf` on
  the character lists.
* Python `str.strip()` is modelled by dropping ASCII whitespace from both
  ends (exact on the inputs considered here).
* `HTTPException(status, detail)` raised by a handler is modelled by the
  `Except` error constructor carrying the status code and detail string;
  FastAPI's query-parameter validation failure (`min_length=1`, HTTP 422)
  is modelled by `ApiError.validation`.
* Pydantic model construction `BrailleCharacter(**char)` performs no
  coercion or validation on this data, so it is modelled as the identity:
  the seed dictionaries are embedded directly as `BrailleCharacter` values,
  with the pydantic defaults (`description`, `usage_notes`,
  `rule_reference` default `None`; `examples` defaults to `[]`) filled in
  for keys a dictionary omits.
-/

namespace BrailleSpec

/-- `BrailleCategory` from `models/braille_models.py`.  The Python member
`PREFIX` (string value `"prefix"`) is rendered `pfx` because `prefix` is a
reserved keyword in Lean; `value` below recovers the Python string value. -/
inductive BrailleCategory where
  | consonant_initial
  | consonant_final
  | vowel
  | vowel_sequence
  | number
  | punctuation
  | special
  | pfx
deriving DecidableEq, Repr

/-- The string value of each enum member (`str, Enum` in Python). -/
def BrailleCategory.value : BrailleCategory → String
  | .consonant_initial => "consonant_initial"
  | .consonant_final => "consonant_final"
  | .vowel => "vowel"
  | .vowel_sequence => "vowel_sequence"
  | .number => "number"
  | .punctuation => "punctuation"
  | .special => "special"
  | .pfx => "prefix"

/-- The enum members in declaration order (Python iterates an `Enum` in
declaration order). -/
def BrailleCategory.all : List BrailleCategory :=
  [.consonant_initial, .consonant_final, .vowel, .vowel_sequence,
   .number, .punctuation, .special, .pfx]

/-- `BrailleCharacter` from `models/braille_models.py`. -/
structure BrailleCharacter where
  id : String
  character : String
  braille_dots : List Nat
  category : BrailleCategory
  name : String
  description : Option String := none
  usage_notes : Option String := none
  rule_reference : Option String := none
  examples : List String := []
deriving DecidableEq, Repr

/-- `BrailleLibraryResponse` from `models/braille_models.py`. -/
structure BrailleLibraryResponse where
  total_count : Nat
  categories : List String
  characters : List BrailleCharacter
deriving DecidableEq, Repr

/-- Errors observable at the HTTP boundary: a handler-raised
`HTTPException(status, detail)`, or FastAPI's 422 response when a query
parameter fails its declared validation (`min_length=1` on `search`). -/
inductive ApiError where
  | http (status : Nat) (detail : String)
  | validation
deriving DecidableEq, Repr

/-- `INITIAL_CONSONANTS` from `data/braille_library.py` (제1절). -/
def INITIAL_CONSONANTS : List BrailleCharacter := [
  { id := "cons_initial_01", character := "ㄱ", braille_dots := [4],
    category := .consonant_initial, name := "기역", description := some "초성 기역",
    rule_reference := some "제1절 제1항", examples := ["가", "고", "구"] },
  { id := "cons_initial_02", character := "ㄴ", braille_dots := [1, 4],
    category := .consonant_initial, name := "니은", description := some "초성 니은",
    rule_reference := some "제1절 제1항", examples := ["나", "노", "누"] },
  { id := "cons_initial_03", character := "ㄷ", braille_dots := [2, 4],
    category := .consonant_initial, name := "디귿", description := some "초성 디귿",
    rule_reference := some "제1절 제1항", examples := ["다", "도", "두"] },
  { id := "cons_initial_04", character := "ㄹ", braille_dots := [5],
    category := .consonant_initial, name := "리을", description := some "초성 리을",
    rule_reference := some "제1절 제1항", examples := ["라", "로", "루"] },
  { id := "cons_initial_05", character := "ㅁ", braille_dots := [1, 5],
    category := .consonant_initial, name := "미음", description := some "초성 미음",
    rule_reference := some "제1절 제1항", examples := ["마", "모", "무"] },
  { id := "cons_initial_06", character := "ㅂ", braille_dots := [4, 5],
    category := .consonant_initial, name := "비읍", description := some "초성 비읍",
    rule_reference := some "제1절 제1항", examples := ["바", "보", "부"] },
  { id := "cons_initial_07", character := "ㅅ", braille_dots := [1, 2, 3],
    category := .consonant_initial, name := "시옷", description := some "초성 시옷",
    rule_reference := some "제1절 제1항", examples := ["사", "소", "수"] },
  { id := "cons_initial_08", character := "ㅇ", braille_dots := [1, 2, 4, 5],
    category := .consonant_initial, name := "이응", description := some "초성 이응 (무음)",
    rule_reference := some "제1절 제1항", examples := ["아", "오", "우"],
    usage_notes := some "초성에서 무음을 나타냄" },
  { id := "cons_initial_09", character := "ㅈ", braille_dots := [4, 6],
    category := .consonant_initial, name := "지읒", description := some "초성 지읒",
    rule_reference := some "제1절 제1항", examples := ["자", "조", "주"] },
  { id := "cons_initial_10", character := "ㅊ", braille_dots := [5, 6],
    category := .consonant_initial, name := "치읓", description := some "초성 치읓",
    rule_reference := some "제1절 제1항", examples := ["차", "초", "추"] },
  { id := "cons_initial_11", character := "ㅋ", braille_dots := [1, 2, 4, 5, 6],
    category := .consonant_initial, name := "키읔", description := some "초성 키읔",
    rule_reference := some "제1절 제1항", examples := ["카", "코", "쿠"] },
  { id := "cons_initial_12", character := "ㅌ", braille_dots := [1, 2, 5, 6],
    category := .consonant_initial, name := "티읕", description := some "초성 티읕",
    rule_reference := some "제1절 제1항", examples := ["타", "토", "투"] },
  { id := "cons_initial_13", character := "ㅍ", braille_dots := [1, 4, 5, 6],
    category := .consonant_initial, name := "피읖", description := some "초성 피읖",
    rule_reference := some "제1절 제1항", examples := ["파", "포", "푸"] },
  { id := "cons_initial_14", character := "ㅎ", braille_dots := [2, 4, 5, 6],
    category := .consonant_initial, name := "히읗", description := some "초성 히읗",
    rule_reference := some "제1절 제1항", examples := ["하", "호", "후"] },
  { id := "cons_initial_15", character := "ㄲ", braille_dots := [4, 4],
    category := .consonant_initial, name := "쌍기역", description := some "된소리 기역",
    rule_reference := some "제1절 제2항", examples := ["까", "꼬", "꾸"],
    usage_notes := some "같은 자음을 두 번 적음" },
  { id := "cons_initial_16", character := "ㄸ", braille_dots := [2, 4, 2, 4],
    category := .consonant_initial, name := "쌍디귿", description := some "된소리 디귿",
    rule_reference := some "제1절 제2항", examples := ["따", "또", "뚜"],
    usage_notes := some "같은 자음을 두 번 적음" },
  { id := "cons_initial_17", character := "ㅃ", braille_dots := [4, 5, 4, 5],
    category := .consonant_initial, name := "쌍비읍", description := some "된소리 비읍",
    rule_reference := some "제1절 제2항", examples := ["빠", "뽀", "뿌"],
    usage_notes := some "같은 자음을 두 번 적음" },
  { id := "cons_initial_18", character := "ㅆ", braille_dots := [1, 2, 3, 1, 2, 3],
    category := .consonant_initial, name := "쌍시옷", description := some "된소리 시옷",
    rule_reference := some "제1절 제2항", examples := ["싸", "쏘", "쑤"],
    usage_notes := some "같은 자음을 두 번 적음" },
  { id := "cons_initial_19", character := "ㅉ", braille_dots := [4, 6, 4, 6],
    category := .consonant_initial, name := "쌍지읒", description := some "된소리 지읒",
    rule_reference := some "제1절 제2항", examples := ["짜", "쪼", "쭈"],
    usage_notes := some "같은 자음을 두 번 적음" }
]

/-- `FINAL_CONSONANTS` from `data/braille_library.py` (제2절). -/
def FINAL_CONSONANTS : List BrailleCharacter := [
  { id := "cons_final_01", character := "ㄱ", braille_dots := [1],
    category := .consonant_final, name := "받침 기역", description := some "종성 기역",
    rule_reference := some "제2절", examples := ["악", "국", "격"] },
  { id := "cons_final_02", character := "ㄴ", braille_dots := [2, 5],
    category := .consonant_final, name := "받침 니은", description := some "종성 니은",
    rule_reference := some "제2절", examples := ["안", "눈", "던"] },
  { id := "cons_final_03", character := "ㄷ", braille_dots := [2, 4, 6],
    category := .consonant_final, name := "받침 디귿", description := some "종성 디귿",
    rule_reference := some "제2절", examples := ["앋", "곧", "믿"] },
  { id := "cons_final_04", character := "ㄹ", braille_dots := [2],
    category := .consonant_final, name := "받침 리을", description := some "종성 리을",
    rule_reference := some "제2절", examples := ["알", "길", "물"] },
  { id := "cons_final_05", character := "ㅁ", braille_dots := [2, 6],
    category := .consonant_final, name := "받침 미음", description := some "종성 미음",
    rule_reference := some "제2절", examples := ["암", "금", "심"] },
  { id := "cons_final_06", character := "ㅂ", braille_dots := [1, 2],
    category := .consonant_final, name := "받침 비읍", description := some "종성 비읍",
    rule_reference := some "제2절", examples := ["압", "급", "입"] },
  { id := "cons_final_07", character := "ㅅ", braille_dots := [3, 4],
    category := .consonant_final, name := "받침 시옷", description := some "종성 시옷",
    rule_reference := some "제2절", examples := ["았", "곧", "있"] },
  { id := "cons_final_08", character := "ㅇ", braille_dots := [2, 6],
    category := .consonant_final, name := "받침 이응", description := some "종성 이응",
    rule_reference := some "제2절", examples := ["앙", "공", "강"] },
  { id := "cons_final_09", character := "ㅈ", braille_dots := [3, 5],
    category := .consonant_final, name := "받침 지읒", description := some "종성 지읒",
    rule_reference := some "제2절", examples := ["앚", "곶"] },
  { id := "cons_final_10", character := "ㅊ", braille_dots := [3, 6],
    category := .consonant_final, name := "받침 치읓", description := some "종성 치읓",
    rule_reference := some "제2절", examples := ["앟", "곾"] },
  { id := "cons_final_11", character := "ㅋ", braille_dots := [1, 3, 4, 5, 6],
    category := .consonant_final, name := "받침 키읔", description := some "종성 키읔",
    rule_reference := some "제2절", examples := ["앜"] },
  { id := "cons_final_12", character := "ㅌ", braille_dots := [3, 4, 5, 6],
    category := .consonant_final, name := "받침 티읕", description := some "종성 티읕",
    rule_reference := some "제2절", examples := ["앝", "핥"] },
  { id := "cons_final_13", character := "ㅍ", braille_dots := [1, 3, 5, 6],
    category := .consonant_final, name := "받침 피읖", description := some "종성 피읖",
    rule_reference := some "제2절", examples := ["앞", "잎"] },
  { id := "cons_final_14", character := "ㅎ", braille_dots := [3, 4, 6],
    category := .consonant_final, name := "받침 히읗", description := some "종성 히읗",
    rule_reference := some "제2절", examples := ["앟", "놓", "좋"] }
]

/-- `VOWELS` from `data/braille_library.py` (제3절, 제4절). -/
def VOWELS : List BrailleCharacter := [
  { id := "vowel_01", character := "ㅏ", braille_dots := [1, 2, 6],
    category := .vowel, name := "모음 아", description := some "단모음 ㅏ",
    rule_reference := some "제3절", examples := ["아", "가", "나"] },
  { id := "vowel_02", character := "ㅑ", braille_dots := [3, 4, 5],
    category := .vowel, name := "모음 야", description := some "단모음 ㅑ",
    rule_reference := some "제3절", examples := ["야", "갸", "냐"] },
  { id := "vowel_03", character := "ㅓ", braille_dots := [2, 3, 5],
    category := .vowel, name := "모음 어", description := some "단모음 ㅓ",
    rule_reference := some "제3절", examples := ["어", "거", "너"] },
  { id := "vowel_04", character := "ㅕ", braille_dots := [1, 3, 4, 6],
    category := .vowel, name := "모음 여", description := some "단모음 ㅕ",
    rule_reference := some "제3절", examples := ["여", "겨", "녀"] },
  { id := "vowel_05", character := "ㅗ", braille_dots := [1, 3, 6],
    category := .vowel, name := "모음 오", description := some "단모음 ㅗ",
    rule_reference := some "제3절", examples := ["오", "고", "노"] },
  { id := "vowel_06", character := "ㅛ", braille_dots := [3, 4, 6],
    category := .vowel, name := "모음 요", description := some "단모음 ㅛ",
    rule_reference := some "제3절", examples := ["요", "교", "뇨"] },
  { id := "vowel_07", character := "ㅜ", braille_dots := [1, 3, 4],
    category := .vowel, name := "모음 우", description := some "단모음 ㅜ",
    rule_reference := some "제3절", examples := ["우", "구", "누"] },
  { id := "vowel_08", character := "ㅠ", braille_dots := [1, 3, 4, 5, 6],
    category := .vowel, name := "모음 유", description := some "단모음 ㅠ",
    rule_reference := some "제3절", examples := ["유", "규", "뉴"] },
  { id := "vowel_09", character := "ㅡ", braille_dots := [2, 4, 6],
    category := .vowel, name := "모음 으", description := some "단모음 ㅡ",
    rule_reference := some "제3절", examples := ["으", "그", "느"] },
  { id := "vowel_10", character := "ㅣ", braille_dots := [1, 3, 5],
    category := .vowel, name := "모음 이", description := some "단모음 ㅣ",
    rule_reference := some "제3절", examples := ["이", "기", "니"] },
  { id := "vowel_11", character := "ㅐ", braille_dots := [1, 2, 3, 5],
    category := .vowel, name := "모음 애", description := some "이중모음 ㅐ",
    rule_reference := some "제4절", examples := ["애", "개", "내"] },
  { id := "vowel_12", character := "ㅒ", braille_dots := [3, 4, 5, 1, 3, 5],
    category := .vowel, name := "모음 얘", description := some "이중모음 ㅒ",
    rule_reference := some "제4절", examples := ["얘", "걔", "냬"],
    usage_notes := some "ㅑ + ㅣ로 적음" },
  { id := "vowel_13", character := "ㅔ", braille_dots := [1, 3, 4, 5],
    category := .vowel, name := "모음 에", description := some "이중모음 ㅔ",
    rule_reference := some "제4절", examples := ["에", "게", "네"] },
  { id := "vowel_14", character := "ㅖ", braille_dots := [1, 3, 4, 6, 1, 3, 5],
    category := .vowel, name := "모음 예", description := some "이중모음 ㅖ",
    rule_reference := some "제4절", examples := ["예", "계", "녜"],
    usage_notes := some "ㅕ + ㅣ로 적음" },
  { id := "vowel_15", character := "ㅘ", braille_dots := [1, 3, 6, 1, 2, 6],
    category := .vowel, name := "모음 와", description := some "이중모음 ㅘ",
    rule_reference := some "제4절", examples := ["와", "과", "놔"],
    usage_notes := some "ㅗ + ㅏ로 적음" },
  { id := "vowel_16", character := "ㅙ", braille_dots := [1, 3, 6, 1, 2, 3, 5],
    category := .vowel, name := "모음 왜", description := some "이중모음 ㅙ",
    rule_reference := some "제4절", examples := ["왜", "괘", "놰"],
    usage_notes := some "ㅗ + ㅐ로 적음" },
  { id := "vowel_17", character := "ㅚ", braille_dots := [1, 3, 6, 1, 3, 5],
    category := .vowel, name := "모음 외", description := some "이중모음 ㅚ",
    rule_reference := some "제4절", examples := ["외", "괴", "뇌"],
    usage_notes := some "ㅗ + ㅣ로 적음" },
  { id := "vowel_18", character := "ㅝ", braille_dots := [1, 3, 4, 2, 3, 5],
    category := .vowel, name := "모음 워", description := some "이중모음 ㅝ",
    rule_reference := some "제4절", examples := ["워", "궈", "눠"],
    usage_notes := some "ㅜ + ㅓ로 적음" },
  { id := "vowel_19", character := "ㅞ", braille_dots := [1, 3, 4, 1, 3, 4, 5],
    category := .vowel, name := "모음 웨", description := some "이중모음 ㅞ",
    rule_reference := some "제4절", examples := ["웨", "궤", "눼"],
    usage_notes := some "ㅜ + ㅔ로 적음" },
  { id := "vowel_20", character := "ㅟ", braille_dots := [1, 3, 4, 1, 3, 5],
    category := .vowel, name := "모음 위", description := some "이중모음 ㅟ",
    rule_reference := some "제4절", examples := ["위", "귀", "뉘"],
    usage_notes := some "ㅜ + ㅣ로 적음" },
  { id := "vowel_21", character := "ㅢ", braille_dots := [2, 4, 6, 1, 3, 5],
    category := .vowel, name := "모음 의", description := some "이중모음 ㅢ",
    rule_reference := some "제4절", examples := ["의", "희"],
    usage_notes := some "ㅡ + ㅣ로 적음" }
]

/-- `VOWEL_SEQUENCES` from `data/braille_library.py` (제5절). -/
def VOWEL_SEQUENCES : List BrailleCharacter := [
  { id := "vowel_seq_01", character := "ㅑㅣ", braille_dots := [3, 4, 5, 1, 3, 5],
    category := .vowel_sequence, name := "모음 연쇄 ㅑㅣ", description := some "야 + 이 연쇄",
    rule_reference := some "제5절", examples := ["야이", "먀이"],
    usage_notes := some "두 모음을 각각 적음" },
  { id := "vowel_seq_02", character := "ㅕㅣ", braille_dots := [1, 3, 4, 6, 1, 3, 5],
    category := .vowel_sequence, name := "모음 연쇄 ㅕㅣ", description := some "여 + 이 연쇄",
    rule_reference := some "제5절", examples := ["여이", "며이"],
    usage_notes := some "두 모음을 각각 적음" },
  { id := "vowel_seq_03", character := "ㅗㅏ", braille_dots := [1, 3, 6, 1, 2, 6],
    category := .vowel_sequence, name := "모음 연쇄 ㅗㅏ", description := some "오 + 아 연쇄",
    rule_reference := some "제5절", examples := ["오아", "보아"],
    usage_notes := some "두 모음을 각각 적음" },
  { id := "vowel_seq_04", character := "ㅗㅐ", braille_dots := [1, 3, 6, 1, 2, 3, 5],
    category := .vowel_sequence, name := "모음 연쇄 ㅗㅐ", description := some "오 + 애 연쇄",
    rule_reference := some "제5절", examples := ["오애", "보애"],
    usage_notes := some "두 모음을 각각 적음" },
  { id := "vowel_seq_05", character := "ㅜㅓ", braille_dots := [1, 3, 4, 2, 3, 5],
    category := .vowel_sequence, name := "모음 연쇄 ㅜㅓ", description := some "우 + 어 연쇄",
    rule_reference := some "제5절", examples := ["우어", "구어"],
    usage_notes := some "두 모음을 각각 적음" },
  { id := "vowel_seq_06", character := "ㅜㅔ", braille_dots := [1, 3, 4, 1, 3, 4, 5],
    category := .vowel_sequence, name := "모음 연쇄 ㅜㅔ", description := some "우 + 에 연쇄",
    rule_reference := some "제5절", examples := ["우에", "구에"],
    usage_notes := some "두 모음을 각각 적음" },
  { id := "vowel_seq_07", character := "ㅜㅣ", braille_dots := [1, 3, 4, 1, 3, 5],
    category := .vowel_sequence, name := "모음 연쇄 ㅜㅣ", description := some "우 + 이 연쇄",
    rule_reference := some "제5절", examples := ["우이", "구이"],
    usage_notes := some "두 모음을 각각 적음" },
  { id := "vowel_seq_08", character := "ㅡㅣ", braille_dots := [2, 4, 6, 1, 3, 5],
    category := .vowel_sequence, name := "모음 연쇄 ㅡㅣ", description := some "으 + 이 연쇄",
    rule_reference := some "제5절", examples := ["으이", "그이"],
    usage_notes := some "두 모음을 각각 적음" }
]

/-- `NUMBERS` from `data/braille_library.py` (제3장).  Note the first entry,
the numeric prefix marker `number_prefix`, carries category `prefix`, not
`number`. -/
def NUMBERS : List BrailleCharacter := [
  { id := "number_prefix", character := "#", braille_dots := [3, 4, 5, 6],
    category := .pfx, name := "수표", description := some "숫자 시작을 나타내는 표시",
    rule_reference := some "제3장 수학 및 과학",
    usage_notes := some "숫자 앞에 붙여 숫자임을 표시" },
  { id := "number_01", character := "1", braille_dots := [1],
    category := .number, name := "숫자 1", description := some "숫자 일",
    rule_reference := some "제3장", examples := ["#1"],
    usage_notes := some "수표 뒤에 사용" },
  { id := "number_02", character := "2", braille_dots := [1, 2],
    category := .number, name := "숫자 2", description := some "숫자 이",
    rule_reference := some "제3장", examples := ["#2"],
    usage_notes := some "수표 뒤에 사용" },
  { id := "number_03", character := "3", braille_dots := [1, 4],
    category := .number, name := "숫자 3", description := some "숫자 삼",
    rule_reference := some "제3장", examples := ["#3"],
    usage_notes := some "수표 뒤에 사용" },
  { id := "number_04", character := "4", braille_dots := [1, 4, 5],
    category := .number, name := "숫자 4", description := some "숫자 사",
    rule_reference := some "제3장", examples := ["#4"],
    usage_notes := some "수표 뒤에 사용" },
  { id := "number_05", character := "5", braille_dots := [1, 5],
    category := .number, name := "숫자 5", description := some "숫자 오",
    rule_reference := some "제3장", examples := ["#5"],
    usage_notes := some "수표 뒤에 사용" },
  { id := "number_06", character := "6", braille_dots := [1, 2, 4],
    category := .number, name := "숫자 6", description := some "숫자 육",
    rule_reference := some "제3장", examples := ["#6"],
    usage_notes := some "수표 뒤에 사용" },
  { id := "number_07", character := "7", braille_dots := [1, 2, 4, 5],
    category := .number, name := "숫자 7", description := some "숫자 칠",
    rule_reference := some "제3장", examples := ["#7"],
    usage_notes := some "수표 뒤에 사용" },
  { id := "number_08", character := "8", braille_dots := [1, 2, 5],
    category := .number, name := "숫자 8", description := some "숫자 팔",
    rule_reference := some "제3장", examples := ["#8"],
    usage_notes := some "수표 뒤에 사용" },
  { id := "number_09", character := "9", braille_dots := [2, 4],
    category := .number, name := "숫자 9", description := some "숫자 구",
    rule_reference := some "제3장", examples := ["#9"],
    usage_notes := some "수표 뒤에 사용" },
  { id := "number_00", character := "0", braille_dots := [2, 4, 5],
    category := .number, name := "숫자 0", description := some "숫자 영",
    rule_reference := some "제3장", examples := ["#0"],
    usage_notes := some "수표 뒤에 사용" }
]

/-- `PUNCTUATION` from `data/braille_library.py` (제2장). -/
def PUNCTUATION : List BrailleCharacter := [
  { id := "punct_01", character := ".", braille_dots := [2, 5, 6],
    category := .punctuation, name := "마침표", description := some "문장의 끝",
    rule_reference := some "제2장 문장부호", examples := ["안녕."] },
  { id := "punct_02", character := ",", braille_dots := [5],
    category := .punctuation, name := "쉼표", description := some "문장 내 쉼",
    rule_reference := some "제2장 문장부호", examples := ["가, 나, 다"] },
  { id := "punct_03", character := "?", braille_dots := [2, 3, 6],
    category := .punctuation, name := "물음표", description := some "의문문의 끝",
    rule_reference := some "제2장 문장부호", examples := ["왜?"] },
  { id := "punct_04", character := "!", braille_dots := [2, 3, 5],
    category := .punctuation, name := "느낌표", description := some "감탄문의 끝",
    rule_reference := some "제2장 문장부호", examples := ["와!"] },
  { id := "punct_05", character := ":", braille_dots := [5, 2],
    category := .punctuation, name := "쌍점", description := some "설명이나 열거",
    rule_reference := some "제2장 문장부호", examples := ["시간: 3시"] },
  { id := "punct_06", character := ";", braille_dots := [5, 6],
    category := .punctuation, name := "쌍반점", description := some "문장 구분",
    rule_reference := some "제2장 문장부호", examples := ["가; 나"] },
  { id := "punct_07", character := "-", braille_dots := [3, 6],
    category := .punctuation, name := "붙임표", description := some "단어 연결",
    rule_reference := some "제2장 문장부호", examples := ["서울-부산"] },
  { id := "punct_08", character := " ", braille_dots := [],
    category := .special, name := "띄어쓰기", description := some "단어 사이 공백",
    rule_reference := some "제1장",
    usage_notes := some "한 칸 띄움" }
]

/-- `ALL_BRAILLE_DATA` from `data/braille_library.py`: the concatenation of
the six seed tables, in source order. -/
def ALL_BRAILLE_DATA : List BrailleCharacter :=
  INITIAL_CONSONANTS ++ FINAL_CONSONANTS ++ VOWELS ++ VOWEL_SEQUENCES ++
  NUMBERS ++ PUNCTUATION

/-- `str.lower()` applied to a string, modelled characterwise by
`Char.toLower` (exact on ASCII; identity on the table's Korean repertoire). -/
def py_lower (s : String) : String :=
  String.mk (s.data.map Char.toLower)

/-- `str.upper()` applied to a string, modelled characterwise by
`Char.toUpper`. -/
def py_upper (s : String) : String :=
  String.mk (s.data.map Char.toUpper)

/-- Python's substring test `q in s`: `q.data` occurs contiguously inside
`s.data`. -/
def py_in (q s : String) : Bool :=
  decide (q.data <:+: s.data)

/-- ASCII whitespace, the fragment of Python's default strip set relevant
here. -/
def is_py_space (c : Char) : Bool :=
  c == ' ' || c == '\t' || c == '\n' || c == '\r' || c == '\x0b' || c == '\x0c'

/-- `str.strip()`: drop whitespace from both ends. -/
def py_strip (s : String) : String :=
  String.mk (((s.data.dropWhile is_py_space).reverse.dropWhile is_py_space).reverse)

/-- `get_all_braille_characters` from `data/braille_library.py`: builds a
`BrailleCharacter` from every seed dictionary (the construction is the
identity in this model). -/
def get_all_braille_characters : List BrailleCharacter :=
  ALL_BRAILLE_DATA

/-- `get_braille_by_category` from `data/braille_library.py`. -/
def get_braille_by_category (category : BrailleCategory) : List BrailleCharacter :=
  ALL_BRAILLE_DATA.filter (fun char => char.category == category)

/-- The per-entry match condition of `search_braille`:
`query_lower in char["character"].lower() or query_lower in char["name"].lower()`. -/
def matches_query (query : String) (char : BrailleCharacter) : Bool :=
  py_in (py_lower query) (py_lower char.character) ||
  py_in (py_lower query) (py_lower char.name)

/-- `search_braille` from `data/braille_library.py`. -/
def search_braille (query : String) : List BrailleCharacter :=
  ALL_BRAILLE_DATA.filter (matches_query query)

/-- `get_available_categories` from `data/braille_library.py`:
`[category.value for category in BrailleCategory]`. -/
def get_available_categories : List String :=
  BrailleCategory.all.map BrailleCategory.value

/-- Builds the `BrailleLibraryResponse` the handlers return for a character
list. -/
def mk_response (characters : List BrailleCharacter) : BrailleLibraryResponse :=
  { total_count := characters.length,
    categories := get_available_categories,
    characters := characters }

/-- `GET /api/v1/braille/library` (`get_braille_library` in
`routers/braille_library.py`).  FastAPI first validates the optional
`search` query parameter (`min_length=1`; an empty string is rejected with
a 422 before the handler runs).  Inside the handler, `if search:` then
holds whenever `search` is present, since the empty string can no longer
occur. -/
def get_braille_library (category : Option BrailleCategory)
    (search : Option String) : Except ApiError BrailleLibraryResponse :=
  match search with
  | some s =>
    if s.length < 1 then
      .error .validation
    else
      let characters := search_braille s
      let characters := match category with
        | some cat => characters.filter (fun char => char.category == cat)
        | none => characters
      .ok (mk_response characters)
  | none =>
    match category with
    | some cat => .ok (mk_response (get_braille_by_category cat))
    | none => .ok (mk_response get_all_braille_characters)

/-- `GET /api/v1/braille/library/{character_id}` (`get_braille_character`
in `routers/braille_library.py`): first entry of the full table with a
matching `id`, else `HTTPException(404, ...)`. -/
def get_braille_character (character_id : String) :
    Except ApiError BrailleCharacter :=
  match get_all_braille_characters.find? (fun char => char.id == character_id) with
  | some char => .ok char
  | none => .error (.http 404
      ("ID '" ++ character_id ++ "'에 해당하는 점자 문자를 찾을 수 없습니다."))

/-- `GET /api/v1/braille/library/category/{category_name}`
(`get_braille_by_category_name` in `routers/braille_library.py`). -/
def get_braille_by_category_name (category_name : BrailleCategory) :
    Except ApiError BrailleLibraryResponse :=
  .ok (mk_response (get_braille_by_category category_name))

/-- `GET /api/v1/braille/library/search/{query}`
(`search_braille_characters` in `routers/braille_library.py`): rejects an
empty or whitespace-only query with `HTTPException(400, ...)`, otherwise
searches with the stripped query. -/
def search_braille_characters (query : String) :
    Except ApiError BrailleLibraryResponse :=
  if query == "" || (py_strip query).length == 0 then
    .error (.http 400 "검색어를 입력해주세요.")
  else
    .ok (mk_response (search_braille (py_strip query)))

/-- Payload of the conversion stub endpoint. -/
structure ConvertResponse where
  original_text : String
  notice : String
  suggestion : String
  library_endpoint : String
deriving DecidableEq, Repr

/-- `GET /api/v1/braille/convert/{text}` (`convert_text_to_braille` in
`routers/braille_library.py`): rejects empty or whitespace-only text with
`HTTPException(400, ...)`, otherwise returns the fixed advisory payload
together with the original text; no conversion is performed. -/
def convert_text_to_braille (text : String) : Except ApiError ConvertResponse :=
  if text == "" || (py_strip text).length == 0 then
    .error (.http 400 "변환할 텍스트를 입력해주세요.")
  else
    .ok { original_text := text,
          notice := "이 기능은 기본 미리보기입니다. 완전한 점자 변환은 별도 라이브러리가 필요합니다.",
          suggestion := "점자 도서관 API를 사용하여 개별 문자의 점자 표현을 확인하세요.",
          library_endpoint := "/api/v1/braille/library" }

/-- Decidable equality of boundary results, for concrete evaluation. -/
instance {e a : Type} [DecidableEq e] [DecidableEq a] : DecidableEq (Except e a) := fun
  | .error x, .error y =>
    if h : x = y then .isTrue (by rw [h]) else .isFalse (fun hh => h (Except.error.inj hh))
  | .error _, .ok _ => .isFalse Except.noConfusion
  | .ok _, .error _ => .isFalse Except.noConfusion
  | .ok x, .ok y =>
    if h : x = y then .isTrue (by rw [h]) else .isFalse (fun hh => h (Except.ok.inj hh))

/-- Packing a valid codepoint into a `Char` and unpacking it is the
identity. -/
theorem char_toNat_ofNat {n : Nat} (h : n < 55296) : (Char.ofNat n).toNat = n := by
  have hv : n.isValidChar := Or.inl h
  rw [Char.ofNat, dif_pos hv]
  rfl

/-- ASCII lowercasing is idempotent. -/
theorem toLower_toLower (c : Char) : c.toLower.toLower = c.toLower := by
  unfold Char.toLower
  by_cases h : c.toNat ≥ 65 ∧ c.toNat ≤ 90
  · rw [if_pos h]
    have ht : (Char.ofNat (c.toNat + 32)).toNat = c.toNat + 32 :=
      char_toNat_ofNat (by omega)
    rw [if_neg (by rw [ht]; omega)]
  · rw [if_neg h, if_neg h]

/-- Lowercasing an uppercased character agrees with lowercasing it
directly. -/
theorem toLower_toUpper (c : Char) : c.toUpper.toLower = c.toLower := by
  unfold Char.toUpper Char.toLower
  by_cases h : c.toNat ≥ 97 ∧ c.toNat ≤ 122
  · rw [if_pos h]
    have ht : (Char.ofNat (c.toNat - 32)).toNat = c.toNat - 32 :=
      char_toNat_ofNat (by omega)
    rw [if_pos (by rw [ht]; omega), ht]
    have h32 : c.toNat - 32 + 32 = c.toNat := by omega
    rw [h32, Char.ofNat_toNat, if_neg (by omega)]
  · rw [if_neg h]

/-- A string has length zero exactly when it is empty. -/
theorem str_length_eq_zero {s : String} : s.length = 0 ↔ s = "" := by
  cases s with
  | mk data =>
    cases data <;> simp [String.length, String.ext_iff]

/-- `py_lower` is idempotent. -/
theorem py_lower_py_lower (s : String) : py_lower (py_lower s) = py_lower s := by
  unfold py_lower
  refine congrArg String.mk ?_
  rw [List.map_map]
  exact List.map_congr_left (fun c _ => toLower_toLower c)

/-- Lowercasing after uppercasing agrees with lowercasing directly. -/
theorem py_lower_py_upper (s : String) : py_lower (py_upper s) = py_lower s := by
  unfold py_lower py_upper
  refine congrArg String.mk ?_
  rw [List.map_map]
  exact List.map_congr_left (fun c _ => toLower_toUpper c)

/-- On the `/library` endpoint, a present, non-empty `search` parameter
(with no category) is passed unstripped to the table's scan. -/
theorem library_search_raw (s : String) (h : s ≠ "") :
    get_braille_library none (some s) = .ok (mk_response (search_braille s)) := by
  simp only [get_braille_library]
  rw [if_neg]
  intro hlt
  exact h (str_length_eq_zero.mp (Nat.lt_one_iff.mp hlt))

/-- The guard shared by the search-path and conversion handlers fails
whenever the stripped input is non-empty. -/
theorem strip_guard_false {t : String} (h : py_strip t ≠ "") :
    ¬ (t == "" || (py_strip t).length == 0) = true := by
  simp only [Bool.or_eq_true, beq_iff_eq]
  rintro (ht | hl)
  · exact h (by rw [ht]; rfl)
  · exact h (str_length_eq_zero.mp hl)

/-- C1: for an id present in the seed table, the single-entry endpoint
returns an entry whose `id` equals the argument; for an id not present, it
fails with the 404 not-found error; the two cases are exhaustive. -/
theorem entryById_ok_or_notFound (character_id : String) :
    ((∃ e ∈ get_all_braille_characters, e.id = character_id) →
      ∃ char, get_braille_character character_id = .ok char ∧ char.id = character_id) ∧
    ((∀ e ∈ get_all_braille_characters, e.id ≠ character_id) →
      get_braille_character character_id = .error (.http 404
        ("ID '" ++ character_id ++ "'에 해당하는 점자 문자를 찾을 수 없습니다."))) := by
  constructor
  · rintro ⟨e, he, hid⟩
    have hs : (get_all_braille_characters.find? (fun c => c.id == character_id)).isSome := by
      rw [List.find?_isSome]
      exact ⟨e, he, by simp [hid]⟩
    obtain ⟨char, hc⟩ := Option.isSome_iff_exists.mp hs
    refine ⟨char, ?_, ?_⟩
    · unfold get_braille_character
      rw [hc]
    · simpa using List.find?_some hc
  · intro h
    have hn : get_all_braille_characters.find? (fun c => c.id == character_id) = none := by
      rw [List.find?_eq_none]
      intro a ha
      simpa using h a ha
    unfold get_braille_character
    rw [hn]

/-- Witness for C1 at the id `cons_initial_01`, which is in the table. -/
theorem entryById_ok_or_notFound_witness :
    ∃ char, get_braille_character "cons_initial_01" = .ok char ∧
      char.id = "cons_initial_01" :=
  (entryById_ok_or_notFound "cons_initial_01").1 (by decide)

/-- C2: supplying both a category and a (non-empty) search query to the
list/filter endpoint yields exactly the sub-list of the table whose
entries both match the case-insensitive substring search and carry the
given category, in the table's natural order. -/
theorem get_braille_library_combined_filter (cat : BrailleCategory) (s : String)
    (h : s ≠ "") :
    get_braille_library (some cat) (some s) =
      .ok (mk_response (ALL_BRAILLE_DATA.filter
        (fun char => matches_query s char && char.category == cat))) := by
  simp only [get_braille_library]
  rw [if_neg (fun hlt => h (str_length_eq_zero.mp (Nat.lt_one_iff.mp hlt)))]
  unfold search_braille
  rw [List.filter_filter]
  refine congrArg Except.ok (congrArg mk_response (List.filter_congr fun a _ => ?_))
  exact Bool.and_comm _ _

/-- Witness for C2 at category `vowel` and query `"ㅏ"`. -/
theorem get_braille_library_combined_filter_witness :
    get_braille_library (some .vowel) (some "ㅏ") =
      .ok (mk_response (ALL_BRAILLE_DATA.filter
        (fun char => matches_query "ㅏ" char && char.category == .vowel))) :=
  get_braille_library_combined_filter .vowel "ㅏ" (by decide)

/-- C3 counterexample: the `number` category does not hold 11 entries (the
numeric prefix marker carries category `prefix`, so only the ten digits
remain). -/
theorem number_category_count_ne_eleven :
    ¬ (get_braille_by_category .number).length = 11 := by decide

/-- C3 (amended): the `number` category holds exactly the ten digits; the
numeric prefix marker sits in the `prefix` category; and the available
category list contains `"number"`. -/
theorem number_category_count :
    (get_braille_by_category .number).length = 10 ∧
    (get_braille_by_category .number).map (fun e => e.character) =
      ["1", "2", "3", "4", "5", "6", "7", "8", "9", "0"] ∧
    (get_braille_by_category .pfx).map (fun e => e.id) = ["number_prefix"] ∧
    "number" ∈ get_available_categories := by decide

/-- C4 counterexample: searching `"기역"` does not return exactly one
entry. -/
theorem search_giyeok_not_unique :
    ¬ (search_braille "기역").length = 1 := by decide

/-- C4 (amended): searching `"기역"` returns exactly three entries, since
the names `쌍기역` and `받침 기역` also contain the query as a substring. -/
theorem search_giyeok_three_entries :
    (search_braille "기역").map (fun e => e.id) =
      ["cons_initial_01", "cons_initial_15", "cons_final_01"] := by decide

/-- C5 counterexample: the list/filter endpoint accepts the whitespace-only
query `"   "` (no client error) and hands it unchanged to the table's
substring scan. -/
theorem library_whitespace_query_not_rejected :
    get_braille_library none (some "   ") = .ok (mk_response (search_braille "   ")) ∧
    get_braille_library none (some "   ") ≠ .error .validation := by
  refine ⟨library_search_raw "   " (by decide), by decide⟩

/-- C5 (amended): the empty query is rejected on both search-capable
endpoints (422 validation on the list/filter endpoint, 400 on the
search-path endpoint); a whitespace-only query is rejected (400) only by
the search-path endpoint, while the list/filter endpoint passes any
non-empty query — whitespace-only ones included — on to the table's
substring scan. -/
theorem empty_and_whitespace_query_handling :
    get_braille_library none (some "") = .error .validation ∧
    search_braille_characters "" = .error (.http 400 "검색어를 입력해주세요.") ∧
    search_braille_characters "   " = .error (.http 400 "검색어를 입력해주세요.") ∧
    (∀ s : String, s ≠ "" → py_strip s = "" →
      get_braille_library none (some s) = .ok (mk_response (search_braille s))) := by
  refine ⟨by decide, by decide, by decide, ?_⟩
  intro s h _
  exact library_search_raw s h

/-- Witness for C5 (amended) at the whitespace-only query `"   "`. -/
theorem empty_and_whitespace_query_handling_witness :
    get_braille_library none (some "   ") = .ok (mk_response (search_braille "   ")) :=
  empty_and_whitespace_query_handling.2.2.2 "   " (by decide) (by decide)

/-- C6: the table search is case-insensitive — uppercasing or lowercasing
the query leaves the result unchanged (for caseless scripts both maps are
the identity, so this degrades to identity there). -/
theorem search_braille_case_insensitive (q : String) :
    search_braille (py_upper q) = search_braille q ∧
    search_braille (py_lower q) = search_braille q := by
  constructor <;>
    exact List.filter_congr (fun c _ => by
      simp [matches_query, py_lower_py_upper, py_lower_py_lower])

/-- Witness for C6 at the ASCII query `"a"` (whose uppercasing is `"A"`). -/
theorem search_braille_case_insensitive_witness :
    (search_braille (py_upper "a") = search_braille "a" ∧
      search_braille (py_lower "a") = search_braille "a") ∧
    py_upper "a" = "A" :=
  ⟨search_braille_case_insensitive "a", by decide⟩

/-- C7 counterexample: the final-consonant entry for `ㄴ` maps to the dot
pattern `[2, 5]`, not `[2, 6]`. -/
theorem final_nieun_dots_ne :
    (FINAL_CONSONANTS.filter (fun e => e.character == "ㄴ")).map
      (fun e => e.braille_dots) ≠ [[2, 6]] ∧
    (FINAL_CONSONANTS.filter (fun e => e.character == "ㄴ")).map
      (fun e => e.braille_dots) = [[2, 5]] := by decide

/-- C7 (amended): in the final-consonant table, the entries for the two
distinct finals `ㅁ` and `ㅇ` both map to the dot pattern `[2, 6]`. -/
theorem final_mieum_ieung_same_dots :
    (FINAL_CONSONANTS.filter (fun e => e.character == "ㅁ" || e.character == "ㅇ")).map
      (fun e => e.braille_dots) = [[2, 6], [2, 6]] ∧
    ("ㅁ" : String) ≠ "ㅇ" := by decide

/-- C8: for every accepted text (non-empty after stripping), the conversion
endpoint returns the fixed advisory payload together with the original
text, never a conversion. -/
theorem convert_text_to_braille_fixed_payload (t : String) (h : py_strip t ≠ "") :
    convert_text_to_braille t = .ok
      { original_text := t,
        notice := "이 기능은 기본 미리보기입니다. 완전한 점자 변환은 별도 라이브러리가 필요합니다.",
        suggestion := "점자 도서관 API를 사용하여 개별 문자의 점자 표현을 확인하세요.",
        library_endpoint := "/api/v1/braille/library" } := by
  rw [convert_text_to_braille, if_neg (strip_guard_false h)]

/-- Witness for C8 at the text `"안녕"`. -/
theorem convert_text_to_braille_fixed_payload_witness :
    convert_text_to_braille "안녕" = .ok
      { original_text := "안녕",
        notice := "이 기능은 기본 미리보기입니다. 완전한 점자 변환은 별도 라이브러리가 필요합니다.",
        suggestion := "점자 도서관 API를 사용하여 개별 문자의 점자 표현을 확인하세요.",
        library_endpoint := "/api/v1/braille/library" } :=
  convert_text_to_braille_fixed_payload "안녕" (by decide)

/-- C9: every dot of every entry in the seed table lies in the closed range
1..6. -/
theorem braille_dots_in_range (e : BrailleCharacter) (he : e ∈ ALL_BRAILLE_DATA)
    (d : Nat) (hd : d ∈ e.braille_dots) : 1 ≤ d ∧ d ≤ 6 := by
  have H : ∀ e ∈ ALL_BRAILLE_DATA, ∀ d ∈ e.braille_dots, 1 ≤ d ∧ d ≤ 6 := by decide
  exact H e he d hd

/-- Witness for C9 at the first entry of the table and its dot 4. -/
theorem braille_dots_in_range_witness : 1 ≤ 4 ∧ 4 ≤ 6 :=
  braille_dots_in_range
    { id := "cons_initial_01", character := "ㄱ", braille_dots := [4],
      category := .consonant_initial, name := "기역", description := some "초성 기역",
      rule_reference := some "제1절 제1항", examples := ["가", "고", "구"] }
    (by decide) 4 (by decide)

/-- C10: the search-path endpoint searches with the stripped query, while
the list/filter endpoint hands the raw query to the table, so the same
whitespace-padded query can answer differently on the two endpoints
(concretely at `" 기역"`). -/
theorem search_path_strips_library_does_not (q : String) (h : py_strip q ≠ "") :
    search_braille_characters q = .ok (mk_response (search_braille (py_strip q))) ∧
    (∀ s : String, s ≠ "" →
      get_braille_library none (some s) = .ok (mk_response (search_braille s))) ∧
    search_braille_characters " 기역" ≠ get_braille_library none (some " 기역") := by
  refine ⟨?_, fun s hs => library_search_raw s hs, by decide⟩
  rw [search_braille_characters, if_neg (strip_guard_false h)]

/-- Witness for C10 at the padded query `" 기역"`. -/
theorem search_path_strips_library_does_not_witness :
    search_braille_characters " 기역" =
      .ok (mk_response (search_braille (py_strip " 기역"))) :=
  (search_path_strips_library_does_not " 기역" (by decide)).1

end BrailleSpec
